import Mathlib

/-!
Verification of the gcosmos rust fragment (gordian-engine/gordian):
a single-shot gRPC client (`src/gcosmos/rust/src/main.rs`) and its
build script (`src/gcosmos/rust/build.rs`).

The client program is embedded as a function from a `World` — which fixes
the outcome of the connection attempt and of the remote call — to a
`RunResult` recording the ordered trace of externally visible events
(standard-output writes and network actions), the sequence of control
states passed through, and the process exit code.  Rust's `unwrap` panics
on an error value; a panic escaping `main` terminates the process with
exit code 101 (non-zero).
-/

/-- Connection failures: endpoint unreachable, connection refused, or
transport handshake failure (spec's `ConnectionError`). -/
inductive ConnectionError
  | unreachable
  | refused
  | handshakeFailure
deriving DecidableEq

/-- Remote-call failures: application-level error from the endpoint or the
channel dropped mid-call (spec's `RpcError`). -/
inductive RpcError
  | applicationError
  | channelDropped
deriving DecidableEq

/-- The request message `CurrentBlockRequest`.  In `main.rs` it is built by
the struct literal `server::CurrentBlockRequest{}`, which lists every field
of the struct; hence the struct has no fields. -/
structure CurrentBlockRequest
deriving DecidableEq

/-- Modelled from the spec: the response message of the watermark method.
Its fields come from `../proto/server/grpc.proto`, which is not part of
this fragment; the spec's end-to-end scenario only requires that it carry
an integer watermark value `N`. -/
structure CurrentBlockResponse where
  watermark : Nat
deriving DecidableEq

/-- The generated client handle (`server::gordian_grpc_client::GordianGrpcClient`),
opaque to this fragment. -/
structure GordianGrpcClient
deriving DecidableEq

/-- The environment of one run: the outcome of a connection attempt to a
given address, and the outcome of the remote `GetBlocksWatermark` call on
an established channel. -/
structure World where
  connectResult : String → Except ConnectionError GordianGrpcClient
  watermarkResult : GordianGrpcClient → CurrentBlockRequest → Except RpcError CurrentBlockResponse

/-- `GordianGrpcClient::connect(dst)`: establish a channel to `dst`, or fail. -/
def GordianGrpcClient.connect (w : World) (dst : String) :
    Except ConnectionError GordianGrpcClient :=
  w.connectResult dst

/-- `conn.get_blocks_watermark(req)`: one remote call over the channel. -/
def GordianGrpcClient.get_blocks_watermark (w : World) (conn : GordianGrpcClient)
    (req : CurrentBlockRequest) : Except RpcError CurrentBlockResponse :=
  w.watermarkResult conn req

/-- Externally visible events of a run, in order: a line written to
standard output, an outbound connection attempt to an address, or a
request issued over the established channel. -/
inductive Event
  | printed (s : String)
  | connectAttempt (dst : String)
  | callAttempt (req : CurrentBlockRequest)
deriving DecidableEq

/-- Control states of the spec's state machine. -/
inductive St
  | start
  | connecting
  | connected
  | calling
  | succeeded
  | failed
deriving DecidableEq

/-- The outcome of one run: the ordered event trace, the sequence of
control states passed through, and the process exit code. -/
structure RunResult where
  trace : List Event
  states : List St
  exitCode : Nat
deriving DecidableEq

/-- The hard-coded endpoint address passed to `connect` in `main.rs`. -/
def serverAddr : String := "http://127.0.0.1:9092"

/-- The rendering of the response printed on success:
`println!("RESPONSE={:#?}", resp)`, Rust's pretty `Debug` format. -/
def renderResponse (r : CurrentBlockResponse) : String :=
  "RESPONSE=CurrentBlockResponse \x7b\n    watermark: " ++ toString r.watermark ++ ",\n\x7d"

/-- The embedding of `main` from `src/gcosmos/rust/src/main.rs`:
print `Clients!`, connect to the literal address (unwrap), build the empty
request, issue the call (unwrap), print the rendered response. -/
def mainRun (w : World) : RunResult :=
  let greet := Event.printed "Clients!"
  match GordianGrpcClient.connect w serverAddr with
  | Except.error _ =>
      { trace := [greet, Event.connectAttempt serverAddr]
        states := [St.start, St.connecting, St.failed]
        exitCode := 101 }
  | Except.ok conn =>
      let req : CurrentBlockRequest := {}
      match GordianGrpcClient.get_blocks_watermark w conn req with
      | Except.error _ =>
          { trace := [greet, Event.connectAttempt serverAddr, Event.callAttempt req]
            states := [St.start, St.connecting, St.connected, St.calling, St.failed]
            exitCode := 101 }
      | Except.ok resp =>
          { trace := [greet, Event.connectAttempt serverAddr, Event.callAttempt req,
                      Event.printed (renderResponse resp)]
            states := [St.start, St.connecting, St.connected, St.calling, St.succeeded]
            exitCode := 0 }

/-- A world whose endpoint accepts the connection and answers the call with
watermark `n` (the spec's stub server at `127.0.0.1:9092`). -/
def stubWorld (n : Nat) : World where
  connectResult := fun _ => Except.ok {}
  watermarkResult := fun _ _ => Except.ok { watermark := n }

/-- A world whose endpoint refuses the connection. -/
def connFailWorld : World where
  connectResult := fun _ => Except.error ConnectionError.refused
  watermarkResult := fun _ _ => Except.error RpcError.channelDropped

/-- A world whose endpoint accepts the connection but answers the call with
an application-level error. -/
def callFailWorld : World where
  connectResult := fun _ => Except.ok {}
  watermarkResult := fun _ _ => Except.error RpcError.applicationError

example : (mainRun (stubWorld 7)).exitCode = 0 := by decide
example : (mainRun connFailWorld).exitCode = 101 := by decide
example : (mainRun callFailWorld).exitCode = 101 := by decide

/-- Is the event a write to standard output? -/
def Event.isPrinted : Event → Bool
  | Event.printed _ => true
  | _ => false

/-- Is the event a request issued over the channel? -/
def Event.isCall : Event → Bool
  | Event.callAttempt _ => true
  | _ => false

/-- Is the event an outbound connection attempt? -/
def Event.isConnect : Event → Bool
  | Event.connectAttempt _ => true
  | _ => false

/-- Number of connection attempts in a trace. -/
def connectCount (tr : List Event) : Nat := tr.countP Event.isConnect

/-- Number of requests issued in a trace. -/
def requestCount (tr : List Event) : Nat := tr.countP Event.isCall

lemma length_renderResponse (r : CurrentBlockResponse) :
    47 ≤ (renderResponse r).length := by
  have h : (renderResponse r).length =
      ("RESPONSE=CurrentBlockResponse \x7b\n    watermark: " ++ toString r.watermark).length
        + (",\n\x7d" : String).length := String.length_append _ _
  have h2 : ("RESPONSE=CurrentBlockResponse \x7b\n    watermark: " ++ toString r.watermark).length
      = ("RESPONSE=CurrentBlockResponse \x7b\n    watermark: " : String).length
        + (toString r.watermark).length := String.length_append _ _
  have h3 : ("RESPONSE=CurrentBlockResponse \x7b\n    watermark: " : String).length = 47 := rfl
  simp only [renderResponse] at *
  omega

lemma renderResponse_ne_greeting (r : CurrentBlockResponse) :
    renderResponse r ≠ "Clients!" := by
  intro h
  have h1 := length_renderResponse r
  rw [h] at h1
  have h2 : ("Clients!" : String).length = 8 := rfl
  omega

/-- Claim C1: in every run in which the connect operation and the remote
call both succeed, the program prints the human-readable rendering of the
received response to standard output and terminates with exit code 0. -/
theorem c1_success_renders_response_and_exits_zero (w : World)
    (conn : GordianGrpcClient) (resp : CurrentBlockResponse)
    (hc : GordianGrpcClient.connect w serverAddr = Except.ok conn)
    (hr : GordianGrpcClient.get_blocks_watermark w conn {} = Except.ok resp) :
    (mainRun w).exitCode = 0 ∧
      Event.printed (renderResponse resp) ∈ (mainRun w).trace := by
  simp [mainRun, hc, hr]

/-- Witness for C1 at a stub world answering watermark 7. -/
theorem c1_success_renders_response_and_exits_zero_witness :
    (GordianGrpcClient.connect (stubWorld 7) serverAddr = Except.ok {} ∧
      GordianGrpcClient.get_blocks_watermark (stubWorld 7) {} {} =
        Except.ok { watermark := 7 }) ∧
    ((mainRun (stubWorld 7)).exitCode = 0 ∧
      Event.printed (renderResponse { watermark := 7 }) ∈ (mainRun (stubWorld 7)).trace) :=
  ⟨⟨rfl, rfl⟩,
    c1_success_renders_response_and_exits_zero (stubWorld 7) {} { watermark := 7 } rfl rfl⟩

/-- Claim C3: in every run in which establishing the connection fails, the
program exits with non-zero status, makes exactly one connection attempt
(no retry), and never issues the remote call. -/
theorem c3_connect_failure_fatal_no_call (w : World) (e : ConnectionError)
    (hc : GordianGrpcClient.connect w serverAddr = Except.error e) :
    (mainRun w).exitCode ≠ 0 ∧
      connectCount (mainRun w).trace = 1 ∧
      requestCount (mainRun w).trace = 0 := by
  simp [mainRun, hc, connectCount, requestCount, List.countP, List.countP.go,
    Event.isConnect, Event.isCall]

/-- Witness for C3 at a world whose endpoint refuses the connection. -/
theorem c3_connect_failure_fatal_no_call_witness :
    (GordianGrpcClient.connect connFailWorld serverAddr =
        Except.error ConnectionError.refused) ∧
    ((mainRun connFailWorld).exitCode ≠ 0 ∧
      connectCount (mainRun connFailWorld).trace = 1 ∧
      requestCount (mainRun connFailWorld).trace = 0) :=
  ⟨rfl, c3_connect_failure_fatal_no_call connFailWorld ConnectionError.refused rfl⟩

/-- Claim C4: in every run in which the connection is established but the
remote call fails (application error or dropped channel), the program
exits with non-zero status and never prints a response rendering. -/
theorem c4_call_failure_fatal_no_rendering (w : World)
    (conn : GordianGrpcClient) (e : RpcError)
    (hc : GordianGrpcClient.connect w serverAddr = Except.ok conn)
    (hr : GordianGrpcClient.get_blocks_watermark w conn {} = Except.error e) :
    (mainRun w).exitCode ≠ 0 ∧
      ∀ r : CurrentBlockResponse,
        Event.printed (renderResponse r) ∉ (mainRun w).trace := by
  refine ⟨?_, ?_⟩
  · simp [mainRun, hc, hr]
  · intro r
    simp [mainRun, hc, hr]
    exact renderResponse_ne_greeting r

/-- Witness for C4 at a world whose endpoint accepts the connection but
answers the call with an application-level error. -/
theorem c4_call_failure_fatal_no_rendering_witness :
    (GordianGrpcClient.connect callFailWorld serverAddr = Except.ok {} ∧
      GordianGrpcClient.get_blocks_watermark callFailWorld {} {} =
        Except.error RpcError.applicationError) ∧
    ((mainRun callFailWorld).exitCode ≠ 0 ∧
      ∀ r : CurrentBlockResponse,
        Event.printed (renderResponse r) ∉ (mainRun callFailWorld).trace) :=
  ⟨⟨rfl, rfl⟩,
    c4_call_failure_fatal_no_rendering callFailWorld {} RpcError.applicationError rfl rfl⟩

/-- Claim C10: in every run, whatever the outcomes of the connection and
of the call, the first event is printing the literal line `Clients!` to
standard output — before any network activity — so some output is
produced even on failing runs. -/
theorem c10_greeting_printed_first (w : World) :
    (mainRun w).trace.head? = some (Event.printed "Clients!") ∧
      (∃ s, Event.printed s ∈ (mainRun w).trace) := by
  rcases hc : GordianGrpcClient.connect w serverAddr with e | conn
  · refine ⟨by simp [mainRun, hc], "Clients!", by simp [mainRun, hc]⟩
  · rcases hr : GordianGrpcClient.get_blocks_watermark w conn {} with e | resp
    · refine ⟨by simp [mainRun, hc, hr], "Clients!", by simp [mainRun, hc, hr]⟩
    · refine ⟨by simp [mainRun, hc, hr], "Clients!", by simp [mainRun, hc, hr]⟩

/-- Does some write to standard output occur strictly before the request
is issued over the channel? -/
def printedBeforeCall (tr : List Event) : Bool :=
  (tr.takeWhile (fun e => ! e.isCall )).any (fun e => e.isPrinted )

/-- Claim C2 counterexample: a run in which connect and call both succeed
(exit code 0) nevertheless writes to standard output (the `Clients!`
greeting) strictly before the remote call is even issued, refuting the
claim that every write to standard output happens only after the remote
call has returned. -/
theorem c2_counterexample_output_before_call :
    (mainRun (stubWorld 5)).exitCode = 0 ∧
      printedBeforeCall (mainRun (stubWorld 5)).trace = true := by
  decide

/-- Every standard-output write before the request is issued is the fixed
greeting line `Clients!`, and on a successful run some standard-output
write occurs at or after the request. -/
def outputDiscipline (r : RunResult) : Bool :=
  ((r.trace.takeWhile (fun e => ! e.isCall )).all
      (fun e => match e with
        | Event.printed s => s == "Clients!"
        | _ => true)) &&
    (r.exitCode != 0 ||
      (r.trace.dropWhile (fun e => ! e.isCall )).any (fun e => e.isPrinted ))

/-- Claim C2 amended: on the success path the only output produced before
the remote call returns is the fixed greeting line `Clients!`; the
response rendering itself is written only after the call has been issued
and has returned. -/
theorem c2_amended_only_greeting_before_call (w : World) :
    outputDiscipline (mainRun w) = true := by
  rcases hc : GordianGrpcClient.connect w serverAddr with e | conn
  · simp [mainRun, hc]
    rfl
  · rcases hr : GordianGrpcClient.get_blocks_watermark w conn {} with e | resp
    · simp [mainRun, hc, hr]
      rfl
    · simp [mainRun, hc, hr]
      rfl

/-- Claim C5 counterexample: in the run against an endpoint that refuses
the connection, no request at all is issued, refuting the claim that in
every run exactly one connection is opened and exactly one request is
issued over it. -/
theorem c5_counterexample_failed_run_issues_no_request :
    ¬ (connectCount (mainRun connFailWorld).trace = 1 ∧
        requestCount (mainRun connFailWorld).trace = 1) := by
  decide

/-- Is the last event of the trace a write to standard output? -/
def lastIsPrint (tr : List Event) : Bool :=
  match tr.getLast? with
  | some (Event.printed _) => true
  | _ => false

/-- The amended single-shot invariant of a run: exactly one connection
attempt; at most one request, exactly one whenever the connection was
established and none when it was not; the run ends in a terminal state,
and a successful run ends right after printing the response. -/
def singleShot (r : RunResult) : Bool :=
  (connectCount r.trace == 1) &&
    decide (requestCount r.trace ≤ 1) &&
    (!(r.states.contains St.connected) || requestCount r.trace == 1) &&
    (r.states.contains St.connected || requestCount r.trace == 0) &&
    (r.states.getLast? == some St.succeeded || r.states.getLast? == some St.failed) &&
    (r.exitCode != 0 || lastIsPrint r.trace)

/-- Claim C5 amended: in every run exactly one connection attempt is made
and at most one request is issued — exactly one when the connection
succeeds and none when it fails — and the program terminates after
printing the response (success) or upon the first failure. -/
theorem c5_amended_single_shot (w : World) :
    singleShot (mainRun w) = true := by
  rcases hc : GordianGrpcClient.connect w serverAddr with e | conn
  · simp [mainRun, hc]
    rfl
  · rcases hr : GordianGrpcClient.get_blocks_watermark w conn {} with e | resp
    · simp [mainRun, hc, hr]
      rfl
    · simp [mainRun, hc, hr]
      rfl

/-- The transition relation of the spec's state machine
`Start → Connecting → Connected → Calling → ` `Succeeded` or `Failed`,
with failure reachable from `Connecting` (connection error) and from
`Calling` (call error); `Succeeded` and `Failed` have no outgoing
transitions (terminal). -/
def specStep : St → St → Bool
  | St.start, St.connecting => true
  | St.connecting, St.connected => true
  | St.connecting, St.failed => true
  | St.connected, St.calling => true
  | St.calling, St.succeeded => true
  | St.calling, St.failed => true
  | _, _ => false

/-- Every consecutive pair of the list is a `specStep` transition. -/
def chainOk : List St → Bool
  | [] => true
  | [_] => true
  | a :: b :: rest => specStep a b && chainOk (b :: rest)

/-- The state sequence of a run follows the spec's machine: it starts at
`Start`, takes only `specStep` transitions, ends in `Succeeded` or
`Failed`, enters `Connecting` exactly once (no reconnect), and whenever
`Calling` occurs, `Connecting` occurs strictly before it. -/
def followsMachine (sts : List St) : Bool :=
  (sts.head? == some St.start) &&
    chainOk sts &&
    (sts.getLast? == some St.succeeded || sts.getLast? == some St.failed) &&
    (sts.count St.connecting == 1) &&
    (!(sts.contains St.calling) ||
      (sts.takeWhile (fun s => !(s == St.calling))).contains St.connecting)

/-- Claim C6: every run's state sequence follows the machine
`Start → Connecting → Connected → Calling → ` `Succeeded`/`Failed`:
connecting precedes calling, `Connecting` is never re-entered, the run
ends in one of the two terminal states, and it ends in `Succeeded` exactly
when the process exits with code 0. -/
theorem c6_run_follows_state_machine (w : World) :
    followsMachine (mainRun w).states = true ∧
      ((mainRun w).states.getLast? = some St.succeeded ↔ (mainRun w).exitCode = 0) := by
  rcases hc : GordianGrpcClient.connect w serverAddr with e | conn
  · refine ⟨by simp [mainRun, hc]; rfl, by simp [mainRun, hc]⟩
  · rcases hr : GordianGrpcClient.get_blocks_watermark w conn {} with e | resp
    · refine ⟨by simp [mainRun, hc, hr]; rfl, by simp [mainRun, hc, hr]⟩
    · refine ⟨by simp [mainRun, hc, hr]; rfl, by simp [mainRun, hc, hr]⟩

/-- Claim C7: the request value is a constant — the empty structured
message — so the requests issued in any two runs are structurally
identical. -/
theorem c7_request_is_constant_empty (w₁ w₂ : World) (r₁ r₂ : CurrentBlockRequest)
    (h₁ : Event.callAttempt r₁ ∈ (mainRun w₁).trace)
    (h₂ : Event.callAttempt r₂ ∈ (mainRun w₂).trace) :
    r₁ = CurrentBlockRequest.mk ∧ r₁ = r₂ := by
  cases r₁
  cases r₂
  exact ⟨rfl, rfl⟩

/-- Witness for C7 at two stub worlds with different watermarks. -/
theorem c7_request_is_constant_empty_witness :
    (Event.callAttempt {} ∈ (mainRun (stubWorld 3)).trace ∧
      Event.callAttempt {} ∈ (mainRun (stubWorld 4)).trace) ∧
    (({} : CurrentBlockRequest) = CurrentBlockRequest.mk ∧
      ({} : CurrentBlockRequest) = ({} : CurrentBlockRequest)) :=
  ⟨⟨by decide, by decide⟩,
    c7_request_is_constant_empty (stubWorld 3) (stubWorld 4) {} {} (by decide) (by decide)⟩

/-- Claim C8: every run attempts the connection to the hard-coded literal
URI-style endpoint `http://127.0.0.1:9092`; against a stub world whose
endpoint answers the watermark method with integer `n`, the run exits with
code 0 and its standard output contains a rendering that includes the
literal value `n`. -/
theorem c8_hardcoded_endpoint_and_stub_scenario (w : World) (n : Nat) :
    Event.connectAttempt "http://127.0.0.1:9092" ∈ (mainRun w).trace ∧
      (mainRun (stubWorld n)).exitCode = 0 ∧
      Event.printed (renderResponse { watermark := n }) ∈ (mainRun (stubWorld n)).trace ∧
      (∃ a b : String, renderResponse { watermark := n } = a ++ toString n ++ b) := by
  refine ⟨?_, rfl, ?_, ?_⟩
  · show Event.connectAttempt serverAddr ∈ (mainRun w).trace
    rcases hc : GordianGrpcClient.connect w serverAddr with e | conn
    · simp [mainRun, hc]
    · rcases hr : GordianGrpcClient.get_blocks_watermark w conn {} with e | resp
      · simp [mainRun, hc, hr]
      · simp [mainRun, hc, hr]
  · simp [mainRun, stubWorld, GordianGrpcClient.connect, GordianGrpcClient.get_blocks_watermark]
  · exact ⟨"RESPONSE=CurrentBlockResponse \x7b\n    watermark: ", ",\n\x7d", rfl⟩

/-- The settings accumulated on a `tonic_build` builder before `compile`:
whether server code and client code are generated, and the output
directory (`none` meaning the default `OUT_DIR`). -/
structure TonicBuildConfig where
  build_server : Bool
  build_client : Bool
  out_dir : Option String
deriving DecidableEq

/-- One invocation of the schema compiler: the builder settings plus the
interface description files and the include search paths passed to
`compile`. -/
structure CompileInvocation where
  config : TonicBuildConfig
  protos : List String
  includes : List String
deriving DecidableEq

/-- The invocation built in `build.rs`:
`tonic_build::configure().build_server(false).build_client(true).out_dir("src")`
applied to the proto file `../proto/server/grpc.proto` with the single
include search path `../proto`. -/
def buildInvocation : CompileInvocation where
  config := { build_server := false, build_client := true, out_dir := some "src" }
  protos := ["../proto/server/grpc.proto"]
  includes := ["../proto"]

/-- Outcome of running the build script: a panic (aborting the build) or
normal completion printing its final line. -/
inductive BuildOutcome
  | panicked (msg : String)
  | finished (line : String)
deriving DecidableEq

/-- The embedding of `main` from `src/gcosmos/rust/build.rs`,
parameterised by the outcome the external schema compiler gives to an
invocation: on error the script panics via `unwrap_or_else`, otherwise it
prints its completion line. -/
def buildMain (compileResult : CompileInvocation → Except String Unit) : BuildOutcome :=
  match compileResult buildInvocation with
  | Except.error e => BuildOutcome.panicked ("Failed to compile protos " ++ e)
  | Except.ok _ => BuildOutcome.finished "cargo build for gcosmos rust grpc done"

/-- Claim C9: the build step passes the schema compiler exactly one
interface description file (`../proto/server/grpc.proto`) and exactly one
include search path (`../proto`), requests client-code but not
server-code generation into the `src` output directory, and panics
(aborting the build) whenever compilation fails. -/
theorem c9_build_invocation_and_abort_on_failure :
    buildInvocation.protos = ["../proto/server/grpc.proto"] ∧
      buildInvocation.protos.length = 1 ∧
      buildInvocation.includes = ["../proto"] ∧
      buildInvocation.includes.length = 1 ∧
      buildInvocation.config.build_client = true ∧
      buildInvocation.config.build_server = false ∧
      buildInvocation.config.out_dir = some "src" ∧
      ∀ e : String,
        buildMain (fun _ => Except.error e) =
          BuildOutcome.panicked ("Failed to compile protos " ++ e) :=
  ⟨rfl, rfl, rfl, rfl, rfl, rfl, rfl, fun _ => rfl⟩
